import Mathlib

/-!
Verification of the `normalize` property lifecycle engine
(`src/normalize/property/__init__.py` and `src/normalize/exc.py`).

The Python classes are shallowly embedded: each descriptor method becomes a
Lean function over an explicit per-(instance, property) slot state, Python
exceptions become an `Except` error channel, and Python's `_Default` sentinel
for "no value supplied" becomes `Option`.
-/

namespace Normalize

/-- Collection classes, nominally.  `listCollection` is `normalize.coll.ListCollection`;
`subListColl s` is a named proper subclass of it; `otherColl s` is a class that does
not derive `ListCollection`. -/
inductive CollType where
  | listCollection
  | subListColl (n : String)
  | otherColl (n : String)
deriving DecidableEq

/-- `issubclass(t, ListCollection)` over the modelled class lattice. -/
def CollType.derivesList : CollType → Bool
  | .listCollection => true
  | .subListColl _ => true
  | .otherColl _ => false

/-- `issubclass(t1, t2)` over the modelled class lattice: every class is a subclass
of itself, and `subListColl` classes are direct subclasses of `ListCollection`. -/
def CollType.isSubclassOf (t1 t2 : CollType) : Bool :=
  t1 == t2 || (t2 == CollType.listCollection && t1.derivesList)

/-- Python values as the lifecycle engine observes them: `None`, scalars, plain
lists (iterables), and collection wrappers tagged with their class and item type
(the item type is `Option` because `CollectionProperty.__init__` accepts `of=None`). -/
inductive Value where
  | none
  | int (n : Int)
  | str (s : String)
  | atom (t : String)
  | list (xs : List Value)
  | wrapper (kind : CollType) (itemtype : Option String) (xs : List Value)

/-- `value is None` (identity test against the `None` singleton). -/
def Value.isNone : Value → Bool
  | .none => true
  | _ => false

/-- Python truthiness, as used by `(value if value else tuple())` at line 185. -/
def Value.truthy : Value → Bool
  | .none => false
  | .int n => n != 0
  | .str s => !s.isEmpty
  | .atom _ => true
  | .list xs => !xs.isEmpty
  | .wrapper _ _ xs => !xs.isEmpty

/-- The items a value yields when treated as an iterable of items (§4.3).  Values
that are not item-iterables never reach this in the claims proved here. -/
def Value.iterItems : Value → List Value
  | .list xs => xs
  | .wrapper _ _ xs => xs
  | _ => []

mutual
/-- Python `repr`, as interpolated by the `'%r'` in `Property.type_check`'s message
(line 66).  Scalar reprs follow Python exactly; container reprs are rendered
structurally (the wrapper's own `__repr__` lives in `normalize/coll.py`, not under
`src/`, and no diagnostic proved here formats a container). -/
def pyRepr : Value → String
  | .none => "None"
  | .int n => toString n
  | .str s => "\x27" ++ s ++ "\x27"
  | .atom t => "<" ++ t ++ ">"
  | .list xs => "[" ++ pyReprItems xs ++ "]"
  | .wrapper _ _ xs => "[" ++ pyReprItems xs ++ "]"

/-- Comma-separated reprs of a list of values. -/
def pyReprItems : List Value → String
  | [] => ""
  | [x] => pyRepr x
  | x :: y :: xs => pyRepr x ++ ", " ++ pyReprItems (y :: xs)
end

/-- The exceptions the property module raises.  `exception`, `valueError` and
`attributeError` are Python's primitive built-ins carrying a free-text message;
`stringFormatExc` stands for the members of the `StringFormatException` hierarchy
defined in `src/normalize/exc.py` (typename plus rendered message). -/
inductive PExc where
  | exception (msg : String)
  | valueError (msg : String)
  | attributeError (msg : String)
  | stringFormatExc (typename : String) (msg : String)
deriving DecidableEq

/-- Membership in the Structured Diagnostics hierarchy of `exc.py`
(`StringFormatException` and its subclasses); the primitive built-ins are not members. -/
def PExc.isStructuredDiagnostic : PExc → Bool
  | .stringFormatExc _ _ => true
  | _ => false

/-- The `class_` weakref of a property: never bound, bound to a garbage-collected
class, or bound to a live class with the given name. -/
inductive ClassRef where
  | unbound
  | gcd
  | live (name : String)

/-- A property's `default`: either a plain value, or a callable.  Callables (the
0- and 1-argument forms alike) are modelled as functions of the per-object
invocation count, which makes "invokes the callable" observable and lets a
callable return a different value on each call; the 1-argument form's `obj`
argument is abstracted away since no claim depends on its value. -/
inductive DefaultSpec where
  | value (v : Value)
  | fn (f : Nat → Value)

/-- The per-(instance, property) state: the `obj.__dict__[self.name]` slot
(`none` = Unset) and the number of default-callable invocations so far. -/
structure ObjState where
  slot : Option Value
  calls : Nat

/-- The data of `Property.__init__` (lines 22-41) after construction:
`default`, `default_wants_arg`, `required`, `check`, `name`, `class_`.
(`default_wants_arg` is only assigned for callable defaults in the source and is
only read for callable defaults; it is kept `false` otherwise.) -/
structure Property where
  default : DefaultSpec
  default_wants_arg : Bool := false
  required : Bool
  check : Option (Value → Bool)
  name : String
  class_ : ClassRef

/-- `Property.fullname` (lines 51-59). -/
def Property.fullname (p : Property) : String :=
  match p.class_ with
  | .unbound => "(unbound)"
  | .gcd => "(GC\x27d class)" ++ "." ++ p.name
  | .live c => c ++ "." ++ p.name

/-- `Property.type_check` (lines 61-67): returns the raised exception, if any.
The required-violation message is `"%s is required" % self.fullname`; the
check-failure message is `"%s value '%r' failed type check" % (self.fullname, value)`. -/
def Property.type_check (p : Property) (value : Value) : Option PExc :=
  if p.required && value.isNone then
    some (.valueError (p.fullname ++ " is required"))
  else
    match p.check with
    | some c =>
      if c value then
        Option.none
      else
        some (.valueError
          (p.fullname ++ " value \x27" ++ pyRepr value ++ "\x27 failed type check"))
    | Option.none => Option.none

/-- `Property.get_default` (lines 69-77): a plain default is returned as-is; a
callable default is invoked (bumping the invocation count). -/
def Property.get_default (p : Property) (s : ObjState) : Value × ObjState :=
  match p.default with
  | .value v => (v, s)
  | .fn f => (f s.calls, { s with calls := s.calls + 1 })

/-- The declaration-time validation in `Property.__init__` (lines 22-41):
for a callable default, `requiredArgs` is the callable's number of required
parameters (`len(args.args) - len(args.defaults)`, `0` when `args.args` is empty);
more than one required argument raises a bare `Exception`. -/
def Property.mkChecked (default : DefaultSpec) (requiredArgs : Nat) (required : Bool)
    (check : Option (Value → Bool)) : Except PExc Property :=
  match default with
  | .fn f =>
    if requiredArgs > 1 then
      .error (.exception "default functions may take 0 or 1 arguments")
    else
      .ok { default := .fn f, default_wants_arg := requiredArgs != 0,
            required := required, check := check, name := "", class_ := .unbound }
  | .value v =>
    .ok { default := .value v, default_wants_arg := false,
          required := required, check := check, name := "", class_ := .unbound }

/-- `Property.init_prop` (lines 79-83): `value : Option Value` models the
`value=_Default` sentinel (`Option.none` = no value supplied).  With no value the
default is evaluated; the (supplied or defaulted) value is type-checked and stored. -/
def Property.init_prop (p : Property) (s : ObjState) (value : Option Value) :
    Except PExc ObjState :=
  let vs : Value × ObjState :=
    match value with
    | Option.none => p.get_default s
    | Option.some v => (v, s)
  match p.type_check vs.1 with
  | some e => .error e
  | Option.none => .ok { vs.2 with slot := some vs.1 }

/-- `Property.__get__` (lines 85-90): a missing slot raises a bare
`AttributeError` (no message); otherwise the stored value is returned. -/
def Property.get (p : Property) (s : ObjState) : Except PExc Value :=
  match s.slot with
  | Option.none => .error (.attributeError "")
  | Option.some v => .ok v

/-- The declaration-time check in `LazyProperty.__init__` (lines 105-108):
`lazy=False` raises a bare `Exception`, otherwise construction proceeds as for
`Property`. -/
def LazyProperty.mkChecked (lazy : Bool) (default : DefaultSpec) (requiredArgs : Nat)
    (required : Bool) (check : Option (Value → Bool)) : Except PExc Property :=
  if !lazy then
    .error (.exception "To make an eager property, do not pass lazy")
  else
    Property.mkChecked default requiredArgs required check

/-- `LazyProperty.init_prop` (lines 110-113): with no value supplied it returns
immediately (slot stays Unset); with a value supplied it calls
`super(LazyProperty, self).init_prop(obj)` — the supplied value is not forwarded,
so `Property.init_prop` runs with its `_Default` sentinel and evaluates the default. -/
def LazyProperty.init_prop (p : Property) (s : ObjState) (value : Option Value) :
    Except PExc ObjState :=
  match value with
  | Option.none => .ok s
  | Option.some _ => Property.init_prop p s Option.none

/-- `LazyProperty.__get__` (lines 115-119): evaluates the default, type-checks it,
writes it into `obj.__dict__[self.name]`, then returns via `Property.__get__`. -/
def LazyProperty.get (p : Property) (s : ObjState) : Except PExc (Value × ObjState) :=
  let vs := p.get_default s
  match p.type_check vs.1 with
  | some e => .error e
  | Option.none =>
    let s2 : ObjState := { vs.2 with slot := some vs.1 }
    match Property.get p s2 with
    | .error e => .error e
    | .ok v2 => .ok (v2, s2)

/-- Attribute read through the descriptor protocol for `LazyProperty`: it defines
neither `__set__` nor `__delete__` (nor does `Property`), so it is a non-data
descriptor and an existing `obj.__dict__` entry takes precedence over `__get__`;
`__get__` (line 115) only runs when the slot is missing. -/
def LazyProperty.readAttr (p : Property) (s : ObjState) : Except PExc (Value × ObjState) :=
  match s.slot with
  | Option.some v => .ok (v, s)
  | Option.none => LazyProperty.get p s

/-- `ROProperty.__get__` (lines 125-126): delegates to `Property.__get__` unchanged. -/
def ROProperty.get (p : Property) (s : ObjState) : Except PExc Value :=
  Property.get p s

/-- `ROProperty.__set__` (lines 128-129): always raises
`AttributeError("%s is read-only" % self.fullname)`, ignoring the value. -/
def ROProperty.set (p : Property) (s : ObjState) (value : Value) : Except PExc ObjState :=
  .error (.attributeError (p.fullname ++ " is read-only"))

/-- `ROProperty.__delete__` (lines 131-135): always raises
`AttributeError("%s is read-only" % self.fullname)`. -/
def ROProperty.delete (p : Property) (s : ObjState) : Except PExc ObjState :=
  .error (.attributeError (p.fullname ++ " is read-only"))

/-- `SlowLazyProperty.__get__` (lines 141-144): returns the stored slot value if
present, otherwise falls through to `LazyProperty.__get__`. -/
def SlowLazyProperty.get (p : Property) (s : ObjState) : Except PExc (Value × ObjState) :=
  match s.slot with
  | Option.some v => .ok (v, s)
  | Option.none => LazyProperty.get p s

/-- `SafeProperty.__set__` (lines 156-158): type-checks the value then stores it. -/
def SafeProperty.set (p : Property) (s : ObjState) (value : Value) : Except PExc ObjState :=
  match p.type_check value with
  | some e => .error e
  | Option.none => .ok { s with slot := some value }

/-- `SafeProperty.__delete__` (lines 160-162): runs `self.type_check(None)`, then
calls `super(SafeProperty, self).__delete__(obj)`.  No class in the remaining MRO
(`Property`, `object`) defines `__delete__`, so that attribute lookup on the super
object raises `AttributeError`; the slot is never removed. -/
def SafeProperty.delete (p : Property) (s : ObjState) : Except PExc ObjState :=
  match p.type_check Value.none with
  | some e => .error e
  | Option.none =>
    .error (.attributeError "\x27super\x27 object has no attribute \x27__delete__\x27")

/-- `CollectionProperty`'s extra fields (lines 169-181): item type `of`, collection
class `coll`, and `check_item` (which `__init__` assigns `None` regardless of the
argument it receives). -/
structure CollectionProperty extends Property where
  of : Option String
  coll : CollType
  check_item : Option Unit := Option.none

/-- The declaration-time check in `CollectionProperty.__init__` (lines 172-181):
omitting `coll` raises a bare `Exception`. -/
def CollectionProperty.mkChecked (of : Option String) (coll : Option CollType)
    (base : Property) : Except PExc CollectionProperty :=
  match coll with
  | Option.none =>
    .error (.exception
      "coll is required; specify coll type or use a sub-class like ListProperty")
  | Option.some c =>
    .ok { toProperty := base, of := of, coll := c, check_item := Option.none }

/-- `isinstance(value, self.coll)`: true when the value is a collection wrapper
whose class is `coll` or a subclass of it. -/
def Value.isInstanceOfColl (v : Value) (c : CollType) : Bool :=
  match v with
  | .wrapper k _ _ => k.isSubclassOf c
  | _ => false

/-- `value.itemtype == self.of`, consulted (line 184) only after `isinstance`
succeeds, i.e. only on wrappers. -/
def Value.itemtypeIs (v : Value) (o : Option String) : Bool :=
  match v with
  | .wrapper _ t _ => t == o
  | _ => false

/-- Modelled from the spec: the `ListCollection` constructor lives in
`normalize/coll.py`, which is not under `src/`.  Per §4.3 the wrapper is
constructed from the raw value treated as an iterable of items, preserving their
order, tagged with the declared item type and collection kind. -/
def collNew (kind : CollType) (itemtype : Option String) (items : List Value) : Value :=
  Value.wrapper kind itemtype items

/-- `CollectionProperty._coerce` (lines 183-186): a value that is already an
instance of `self.coll` with `itemtype == self.of` is returned unchanged; anything
else is rebuilt as `self.coll(self.of, (value if value else tuple()))`. -/
def CollectionProperty._coerce (cp : CollectionProperty) (value : Value) : Value :=
  if !(value.isInstanceOfColl cp.coll) || !(value.itemtypeIs cp.of) then
    collNew cp.coll cp.of (if value.truthy then value.iterItems else [])
  else
    value

/-- `ListProperty.__init__` (lines 198-213): the item type comes from `list_of=`
or, failing that, `of=`; a falsy item type raises; a `coll=` argument defaulting to
`ListCollection` is checked to derive `ListCollection` — and then the call to
`CollectionProperty.__init__` passes the literal `ListCollection`, not the checked
`colltype`. -/
def ListProperty.mkChecked (list_of : Option String) (ofKw : Option String)
    (collKw : Option CollType) (base : Property) : Except PExc CollectionProperty :=
  let lo : Option String :=
    match list_of with
    | Option.none => ofKw
    | Option.some x => Option.some x
  match lo with
  | Option.none =>
    .error (.exception
      "List Properties must have a defined item type; pass of= or list_of= to the declaration")
  | Option.some it =>
    if it.isEmpty then
      .error (.exception
        "List Properties must have a defined item type; pass of= or list_of= to the declaration")
    else
      let colltype := collKw.getD CollType.listCollection
      if !colltype.derivesList then
        .error (.exception "List Property collections must derive ListCollection")
      else
        CollectionProperty.mkChecked (Option.some it)
          (Option.some CollType.listCollection) base

/-- A user-level exception object: its type's name and its constructor arguments. -/
inductive ExcVal where
  | mk (typename : String) (args : List Value)

/-- The type name of a user-level exception object. -/
def ExcVal.typename : ExcVal → String
  | .mk t _ => t

/-- Modelled from the spec: instantiating an exception type with no arguments
(§4.2 Evaluate empty, case (c): "raised (instantiating if it is a type)"). -/
def instantiateExc (typename : String) : ExcVal :=
  .mk typename []

/-- Modelled from the spec: the empty-specification of a property (§4.2).  The
`empty=` declaration surface is not implemented under `src/` (only
`src/tests/test_record.py` exercises it); a specification is (a) a concrete value,
(b) a callable, or (c) an exception instance or exception type. -/
inductive EmptySpec where
  | value (v : Value)
  | fn (f : Nat → Value)
  | excInstance (e : ExcVal)
  | excType (typename : String)

/-- Modelled from the spec: "Evaluate empty" (§4.2) — (a) a concrete value is used
as-is; (b) a callable is invoked fresh on every such read; (c) an exception value
or exception type is raised (instantiating if it is a type) instead of returning
a value. -/
def evalEmpty (spec : EmptySpec) (callIdx : Nat) : Except ExcVal Value :=
  match spec with
  | .value v => .ok v
  | .fn f => .ok (f callIdx)
  | .excInstance e => .error e
  | .excType t => .error (instantiateExc t)

/-- Modelled from the spec: Read (§4.2) for a property with an empty-specification
— a `Set` slot returns its value; an `Unset` slot evaluates the empty-specification. -/
def emptyRead (spec : EmptySpec) (slot : Option Value) (callIdx : Nat) :
    Except ExcVal Value :=
  match slot with
  | Option.some v => .ok v
  | Option.none => evalEmpty spec callIdx

/-- Whether `pat` is a prefix of `s` (over characters). -/
def charsPrefix : List Char → List Char → Bool
  | [], _ => true
  | _ :: _, [] => false
  | a :: s, b :: t => a == b && charsPrefix s t

/-- Whether `pat` occurs as a contiguous run inside `s` (over characters). -/
def charsSub (pat : List Char) : List Char → Bool
  | [] => charsPrefix pat []
  | c :: rest => charsPrefix pat (c :: rest) || charsSub pat rest

/-- Whether the string `pat` occurs inside the string `s`: "the message names X"
is formalised as `strSub X msg = true`. -/
def strSub (pat s : String) : Bool :=
  charsSub pat.toList s.toList

/-! Concrete fixtures used by counterexamples and witnesses. -/

/-- A plain writable property `R.x` with default `7`. -/
def c1prop : Property :=
  { default := .value (Value.int 7), required := false, check := Option.none,
    name := "x", class_ := .live "R" }

/-- A required property `C.f` with default `None` and no check. -/
def cReq : Property :=
  { default := .value Value.none, required := true, check := Option.none,
    name := "f", class_ := .live "C" }

/-- A callable default returning the invocation index. -/
def lazyFn : Nat → Value := fun k => Value.int (Int.ofNat k)

/-- A lazy property `R.t` whose callable default is `lazyFn`. -/
def c2prop : Property :=
  { default := .fn lazyFn, required := false, check := Option.none,
    name := "t", class_ := .live "R" }

/-- A callable default constantly returning `3`. -/
def slowFn : Nat → Value := fun _ => Value.int 3

/-- A slow-lazy property `R.z` whose callable default is `slowFn`. -/
def c6prop : Property :=
  { default := .fn slowFn, required := false, check := Option.none,
    name := "z", class_ := .live "R" }

/-! Helper lemmas about `strSub`. -/

lemma charsPrefix_append (xs ys : List Char) : charsPrefix xs (xs ++ ys) = true := by
  induction xs with
  | nil => rfl
  | cons a s ih => simp [charsPrefix, ih]

lemma charsSub_of_charsPrefix (xs s : List Char) (h : charsPrefix xs s = true) :
    charsSub xs s = true := by
  cases s with
  | nil => exact h
  | cons c rest => simp [charsSub, h]

lemma strSub_self_append (pat suff : String) : strSub pat (pat ++ suff) = true := by
  unfold strSub
  have h : (pat ++ suff).toList = pat.toList ++ suff.toList := by
    simp [String.toList, String.data_append]
  rw [h]
  exact charsSub_of_charsPrefix _ _ (charsPrefix_append _ _)

/-! The claims. -/

/-- C1: `Property.init_prop` stores an explicitly supplied value after validating
it, but `LazyProperty.init_prop` (line 113) drops the supplied value — it calls
`super().init_prop(obj)` without forwarding it, so the default (`7`) is validated
and stored instead of the supplied `5`. -/
theorem lazy_init_prop_discards_supplied_value :
    LazyProperty.init_prop c1prop { slot := Option.none, calls := 0 }
        (Option.some (Value.int 5)) =
      Except.ok { slot := Option.some (Value.int 7), calls := 0 } ∧
    Property.init_prop c1prop { slot := Option.none, calls := 0 }
        (Option.some (Value.int 5)) =
      Except.ok { slot := Option.some (Value.int 5), calls := 0 } :=
  ⟨rfl, rfl⟩

/-- C3: `SafeProperty.__delete__` on a writable property whose slot is `Set(1)`
does not transition the slot to Unset — the `super().__delete__` lookup at line 162
finds no `__delete__` in `Property` or `object` and raises `AttributeError`. -/
theorem safe_delete_always_raises :
    SafeProperty.delete c1prop { slot := Option.some (Value.int 1), calls := 0 } =
      Except.error
        (PExc.attributeError "\x27super\x27 object has no attribute \x27__delete__\x27") :=
  rfl

/-- C5: a read-only property rejects every `Set` and every `Delete` with an
`AttributeError` whose message names the property's qualified name, regardless of
the supplied value, and its `Read` is exactly `Property.__get__`. -/
theorem ro_set_delete_always_fail (p : Property) (s : ObjState) (v : Value) :
    ROProperty.set p s v =
      Except.error (PExc.attributeError (p.fullname ++ " is read-only")) ∧
    ROProperty.delete p s =
      Except.error (PExc.attributeError (p.fullname ++ " is read-only")) ∧
    strSub p.fullname (p.fullname ++ " is read-only") = true ∧
    ROProperty.get p s = Property.get p s :=
  ⟨rfl, rfl, strSub_self_append _ _, rfl⟩

/-- C7: `CollectionProperty._coerce` returns a wrapper of exactly the declared
collection class and item type unchanged; a plain iterable `[a, b, c]` is wrapped
preserving order; an absent/null value coerces to an empty wrapper. -/
theorem coerce_identity_order_empty (cp : CollectionProperty) (xs : List Value)
    (a b c : Value) :
    cp._coerce (Value.wrapper cp.coll cp.of xs) = Value.wrapper cp.coll cp.of xs ∧
    cp._coerce (Value.list [a, b, c]) = Value.wrapper cp.coll cp.of [a, b, c] ∧
    (cp._coerce (Value.list [a, b, c])).iterItems = [a, b, c] ∧
    cp._coerce Value.none = Value.wrapper cp.coll cp.of [] := by
  refine ⟨?_, rfl, rfl, rfl⟩
  simp [CollectionProperty._coerce, Value.isInstanceOfColl, Value.itemtypeIs,
    CollType.isSubclassOf]

/-- C8: with an empty-specification that is an exception type, reading an Unset
slot raises a freshly instantiated instance of that type; with an exception
instance, it raises that exact instance; in neither case is a value returned. -/
theorem empty_exception_specs_raise (t : String) (e : ExcVal) (n : Nat) :
    emptyRead (EmptySpec.excType t) Option.none n = Except.error (instantiateExc t) ∧
    (instantiateExc t).typename = t ∧
    emptyRead (EmptySpec.excInstance e) Option.none n = Except.error e :=
  ⟨rfl, rfl, rfl⟩

/-- C2 counterexample: reading an Unset `LazyProperty` slot does write the produced
value back — after the read the slot holds `Set(0)`, not Unset. -/
theorem lazy_get_writes_back_cex :
    LazyProperty.readAttr c2prop { slot := Option.none, calls := 0 } =
      Except.ok (Value.int 0, { slot := Option.some (Value.int 0), calls := 1 }) ∧
    (Option.some (Value.int 0) ≠ (Option.none : Option Value)) :=
  ⟨rfl, fun h => Option.noConfusion h⟩

/-- C4 counterexample: the required-violation failure path raises a primitive
`ValueError`, which is not a member of the Structured Diagnostics hierarchy. -/
theorem primitive_failure_cex :
    Property.type_check cReq Value.none =
      Option.some (PExc.valueError "C.f is required") ∧
    PExc.isStructuredDiagnostic (PExc.valueError "C.f is required") = false :=
  ⟨rfl, rfl⟩

/-- C9 counterexample: the required-violation message `"C.f is required"` does not
name the rejected value (`None`), and a required lazy property initialized with no
value raises nothing at initialize time (the slot just stays Unset). -/
theorem required_message_lacks_value_cex :
    Property.type_check cReq Value.none =
      Option.some (PExc.valueError "C.f is required") ∧
    strSub (pyRepr Value.none) "C.f is required" = false ∧
    LazyProperty.init_prop cReq { slot := Option.none, calls := 0 } Option.none =
      Except.ok { slot := Option.none, calls := 0 } :=
  ⟨rfl, rfl, rfl⟩

/-- C2 (amended): a read of an Unset `LazyProperty` slot invokes the callable
default once and writes the produced value into the slot; the next attribute read
returns that stored value without invoking the callable again. -/
theorem lazy_get_invokes_and_caches (p : Property) (f : Nat → Value) (n : Nat)
    (hd : p.default = DefaultSpec.fn f)
    (hc : p.type_check (f n) = Option.none) :
    LazyProperty.readAttr p { slot := Option.none, calls := n } =
      Except.ok (f n, { slot := Option.some (f n), calls := n + 1 }) ∧
    LazyProperty.readAttr p { slot := Option.some (f n), calls := n + 1 } =
      Except.ok (f n, { slot := Option.some (f n), calls := n + 1 }) := by
  constructor
  · show LazyProperty.get p { slot := Option.none, calls := n } = _
    simp only [LazyProperty.get, Property.get_default, hd, hc, Property.get]
  · rfl

theorem lazy_get_invokes_and_caches_witness :
    c2prop.default = DefaultSpec.fn lazyFn ∧
    c2prop.type_check (lazyFn 0) = Option.none ∧
    (LazyProperty.readAttr c2prop { slot := Option.none, calls := 0 } =
       Except.ok (lazyFn 0, { slot := Option.some (lazyFn 0), calls := 1 }) ∧
     LazyProperty.readAttr c2prop { slot := Option.some (lazyFn 0), calls := 1 } =
       Except.ok (lazyFn 0, { slot := Option.some (lazyFn 0), calls := 1 })) :=
  ⟨rfl, rfl, lazy_get_invokes_and_caches c2prop lazyFn 0 rfl rfl⟩

/-- Every exception `type_check` raises is a primitive `ValueError`, hence not a
member of the Structured Diagnostics hierarchy. -/
lemma type_check_not_structured (p : Property) (v : Value) (e : PExc)
    (h : p.type_check v = some e) : e.isStructuredDiagnostic = false := by
  unfold Property.type_check at h
  split at h
  · injection h with h
    subst h
    rfl
  · split at h
    · split at h
      · exact Option.noConfusion h
      · injection h with h
        subst h
        rfl
    · exact Option.noConfusion h

/-- C4 (amended): every modelled failure path of the property module —
`Set` validation, declaration-time signature/`lazy=`/`coll=`/item-type errors,
read-only rejections, and the broken delete — raises a primitive built-in
exception, never a member of the Structured Diagnostics hierarchy. -/
theorem failure_paths_raise_primitive (p : Property) (v : Value) (s : ObjState)
    (e : PExc) (d : DefaultSpec) (nargs : Nat) (req lzy : Bool)
    (chk : Option (Value → Bool)) (o : Option String) (c : Option CollType)
    (lo okw : Option String) (ck : Option CollType) :
    (Property.type_check p v = some e → e.isStructuredDiagnostic = false) ∧
    (Property.mkChecked d nargs req chk = Except.error e →
       e.isStructuredDiagnostic = false) ∧
    (LazyProperty.mkChecked lzy d nargs req chk = Except.error e →
       e.isStructuredDiagnostic = false) ∧
    (ROProperty.set p s v = Except.error e → e.isStructuredDiagnostic = false) ∧
    (ROProperty.delete p s = Except.error e → e.isStructuredDiagnostic = false) ∧
    (SafeProperty.delete p s = Except.error e → e.isStructuredDiagnostic = false) ∧
    (CollectionProperty.mkChecked o c p = Except.error e →
       e.isStructuredDiagnostic = false) ∧
    (ListProperty.mkChecked lo okw ck p = Except.error e →
       e.isStructuredDiagnostic = false) := by
  refine ⟨fun h => type_check_not_structured p v e h, ?_, ?_, ?_, ?_, ?_, ?_, ?_⟩ <;>
    intro h
  · unfold Property.mkChecked at h
    repeat' split at h
    all_goals first
      | exact Except.noConfusion h
      | (injection h with h; subst h; rfl)
  · unfold LazyProperty.mkChecked Property.mkChecked at h
    repeat' split at h
    all_goals first
      | exact Except.noConfusion h
      | (injection h with h; subst h; rfl)
  · unfold ROProperty.set at h
    injection h with h
    subst h
    rfl
  · unfold ROProperty.delete at h
    injection h with h
    subst h
    rfl
  · unfold SafeProperty.delete at h
    split at h
    case h_1 e1 heq =>
      injection h with h
      subst h
      exact type_check_not_structured _ _ _ heq
    case h_2 =>
      injection h with h
      subst h
      rfl
  · unfold CollectionProperty.mkChecked at h
    repeat' split at h
    all_goals first
      | exact Except.noConfusion h
      | (injection h with h; subst h; rfl)
  · simp only [ListProperty.mkChecked, CollectionProperty.mkChecked] at h
    repeat' split at h
    all_goals first
      | exact Except.noConfusion h
      | exact h.elim
      | (injection h with h; subst h; rfl)

theorem failure_paths_raise_primitive_witness :
    PExc.isStructuredDiagnostic (PExc.valueError "C.f is required") = false :=
  (failure_paths_raise_primitive cReq Value.none { slot := Option.none, calls := 0 }
    (PExc.valueError "C.f is required") (DefaultSpec.value Value.none) 0 false true
    Option.none Option.none Option.none Option.none Option.none Option.none).1 rfl

/-- C6: on a slow-lazy property with a callable default, the first read of an
Unset slot invokes the callable once and caches the value in the slot, and the
second read returns the same value with no further invocation. -/
theorem slow_lazy_first_read_caches (p : Property) (f : Nat → Value) (n : Nat)
    (hd : p.default = DefaultSpec.fn f)
    (hc : p.type_check (f n) = Option.none) :
    SlowLazyProperty.get p { slot := Option.none, calls := n } =
      Except.ok (f n, { slot := Option.some (f n), calls := n + 1 }) ∧
    SlowLazyProperty.get p { slot := Option.some (f n), calls := n + 1 } =
      Except.ok (f n, { slot := Option.some (f n), calls := n + 1 }) := by
  constructor
  · show LazyProperty.get p { slot := Option.none, calls := n } = _
    simp only [LazyProperty.get, Property.get_default, hd, hc, Property.get]
  · rfl

theorem slow_lazy_first_read_caches_witness :
    c6prop.default = DefaultSpec.fn slowFn ∧
    c6prop.type_check (slowFn 0) = Option.none ∧
    (SlowLazyProperty.get c6prop { slot := Option.none, calls := 0 } =
       Except.ok (slowFn 0, { slot := Option.some (slowFn 0), calls := 1 }) ∧
     SlowLazyProperty.get c6prop { slot := Option.some (slowFn 0), calls := 1 } =
       Except.ok (slowFn 0, { slot := Option.some (slowFn 0), calls := 1 })) :=
  ⟨rfl, rfl, slow_lazy_first_read_caches c6prop slowFn 0 rfl rfl⟩

/-- C9 (amended): `Set` validation rejects `None` for a required property and any
check-false candidate; a check failure's `ValueError` message names the qualified
name and the rejected value, a required failure's message names the qualified name
only; an eager required property with `None` default and no supplied value raises
at initialize time; `SafeProperty.__set__` propagates exactly `type_check`'s verdict. -/
theorem set_validation_rejections (p : Property) (v : Value) (c : Value → Bool)
    (s : ObjState) (e : PExc) :
    (p.required = true →
       Property.type_check p Value.none =
         some (PExc.valueError (p.fullname ++ " is required"))) ∧
    (p.check = some c → c v = false → (p.required && v.isNone) = false →
       Property.type_check p v =
         some (PExc.valueError
           (p.fullname ++ " value \x27" ++ pyRepr v ++ "\x27 failed type check"))) ∧
    (p.required = true → p.default = DefaultSpec.value Value.none →
       Property.init_prop p s Option.none =
         Except.error (PExc.valueError (p.fullname ++ " is required"))) ∧
    (Property.type_check p v = some e → SafeProperty.set p s v = Except.error e) ∧
    (Property.type_check p v = Option.none →
       SafeProperty.set p s v = Except.ok { s with slot := Option.some v }) := by
  refine ⟨?_, ?_, ?_, ?_, ?_⟩
  · intro h
    simp [Property.type_check, h, Value.isNone]
  · intro hchk hcv hreq
    simp [Property.type_check, hreq, hchk, hcv]
  · intro hr hdflt
    simp [Property.init_prop, Property.get_default, hdflt, Property.type_check, hr,
      Value.isNone]
  · intro h
    simp [SafeProperty.set, h]
  · intro h
    simp [SafeProperty.set, h]

theorem set_validation_rejections_witness :
    Property.type_check cReq Value.none =
      Option.some (PExc.valueError "C.f is required") ∧
    SafeProperty.set cReq { slot := Option.none, calls := 0 } Value.none =
      Except.error (PExc.valueError "C.f is required") := by
  have h := set_validation_rejections cReq Value.none (fun _ => false)
    { slot := Option.none, calls := 0 } (PExc.valueError "C.f is required")
  exact ⟨h.1 rfl, h.2.2.2.1 (h.1 rfl)⟩

/-- C10: `ListProperty.__init__` validates a supplied `coll=` against the
`ListCollection`-subclass requirement (rejecting non-subclasses) but then passes
the literal `ListCollection` on: the constructed property's `coll` is always
`ListCollection` itself, even when a proper subclass was supplied. -/
theorem list_property_discards_coll_subclass (sub other it : String)
    (okw : Option String) (base : Property) (h : it.isEmpty = false) :
    ListProperty.mkChecked (Option.some it) okw
        (Option.some (CollType.subListColl sub)) base =
      Except.ok { toProperty := base, of := Option.some it,
                  coll := CollType.listCollection, check_item := Option.none } ∧
    ListProperty.mkChecked (Option.some it) okw
        (Option.some (CollType.otherColl other)) base =
      Except.error
        (PExc.exception "List Property collections must derive ListCollection") := by
  constructor <;>
    simp [ListProperty.mkChecked, h, CollType.derivesList,
      CollectionProperty.mkChecked, Option.getD]

theorem list_property_discards_coll_subclass_witness :
    ("int".isEmpty = false) ∧
    ListProperty.mkChecked (Option.some "int") Option.none
        (Option.some (CollType.subListColl "MyList")) c1prop =
      Except.ok { toProperty := c1prop, of := Option.some "int",
                  coll := CollType.listCollection, check_item := Option.none } :=
  ⟨rfl,
   (list_property_discards_coll_subclass "MyList" "X" "int" Option.none c1prop rfl).1⟩

end Normalize
